import Mathlib

/-!
Verification of the callback-registry core
(`litellm/litellm_core_utils/logging_callback_manager.py`).

The Python module manages six process-wide callback lists
(`litellm.input_callback`, `litellm.callbacks`, `litellm.success_callback`,
`litellm.failure_callback`, `litellm._async_success_callback`,
`litellm._async_failure_callback`).  A callback is a string name, a
`CustomLogger` instance, a callable, or (when callers hand in something
else) an unsupported value.  We embed the module shallowly: Python lists
become `List`, the duck-typed callback union becomes a tagged union, and
Python object identity becomes explicit numeric object ids.
-/

/-- A primitive-or-not attribute value, as `vars(obj)` can hold: the key
derivation keeps `str`, `bool` and `int` values and skips everything else
(`other` stands for any non-primitive Python value, identified by object id). -/
inductive AttrValue where
  | str (s : String)
  | bool (b : Bool)
  | int (i : Int)
  | other (objId : Nat)
deriving DecidableEq, Repr

/-- A `CustomLogger` instance: its Python object identity, its class name
(`type(x).__name__`) and `vars(x).items()` in attribute insertion order. -/
structure CustomLoggerObj where
  objId : Nat
  typeName : String
  attrs : List (String × AttrValue)
deriving DecidableEq, Repr

/-- The callback union the manager dispatches on at runtime:
a string name, a `CustomLogger` instance, a callable (a plain function when
`selfId = none`, a bound method with owner object id `selfId` otherwise;
Python compares callables by function identity and, for bound methods, by
`(func, self)`), or a value of none of those shapes.  Equality of this type
is Python `==` on the modelled values: strings by value, the rest by the
identity data they carry. -/
inductive Callback where
  | str (s : String)
  | logger (l : CustomLoggerObj)
  | fn (funcId : Nat) (selfId : Option Nat) (fname : String)
  | unsupported (objId : Nat)
deriving DecidableEq, Repr

/-- The six module-level callback lists of `litellm`. -/
structure RegistryState where
  input_callback : List Callback
  callbacks : List Callback
  success_callback : List Callback
  failure_callback : List Callback
  async_success_callback : List Callback
  async_failure_callback : List Callback
deriving DecidableEq, Repr

/-- `LoggingCallbackManager.MAX_CALLBACKS`. -/
def MAX_CALLBACKS : Nat := 30

/-- `_check_callback_list_size`: `False` when the list already holds
`MAX_CALLBACKS` or more entries, `True` otherwise. -/
def check_callback_list_size (parent_list : List Callback) : Bool :=
  if MAX_CALLBACKS ≤ parent_list.length then false else true

/-- `_add_string_callback_to_list`: append unless the string is already an
element (Python `in`, which is `==` against each element). -/
def add_string_callback_to_list (callback : String) (parent_list : List Callback) :
    List Callback :=
  if Callback.str callback ∈ parent_list then parent_list
  else parent_list ++ [Callback.str callback]

/-- `attr_name.startswith("_")` for the one-character pattern: the first
character is an underscore.  (Stated on `String.data` so that it reduces in
the kernel.) -/
def startsWithUnderscore (n : String) : Bool :=
  match n.data with
  | [] => false
  | c :: _ => c = '_'

/-- The `f"{attr_name}={attr_value}"` part contributed by one attribute of
`vars`, or `none` when `_get_custom_logger_key` skips it (private name or
non-primitive value).  Python renders `True`/`False` for bools and decimal
notation for ints. -/
def attrKeyPart (n : String) (v : AttrValue) : Option String :=
  if startsWithUnderscore n then none
  else match v with
    | AttrValue.str s => some (n ++ "=" ++ s)
    | AttrValue.bool b => some (n ++ "=" ++ (if b then "True" else "False"))
    | AttrValue.int i => some (n ++ "=" ++ toString i)
    | AttrValue.other _ => none

/-- `_get_custom_logger_key`: the class name followed by the kept
`name=value` parts, in `vars` iteration order, joined with `"-"`. -/
def get_custom_logger_key (custom_logger : CustomLoggerObj) : String :=
  String.intercalate "-"
    (custom_logger.typeName ::
      custom_logger.attrs.filterMap (fun p => attrKeyPart p.1 p.2))

/-- Whether one existing list element blocks `_add_custom_logger_to_list`:
it is a `CustomLogger` and its key equals the candidate's key. -/
def loggerKeyMatches (key : String) (e : Callback) : Bool :=
  match e with
  | Callback.logger ex => get_custom_logger_key ex = key
  | _ => false

/-- `_add_custom_logger_to_list`: scan for an existing `CustomLogger` with
the same derived key; on a hit return unchanged, otherwise append. -/
def add_custom_logger_to_list (custom_logger : CustomLoggerObj)
    (parent_list : List Callback) : List Callback :=
  if parent_list.any (loggerKeyMatches (get_custom_logger_key custom_logger)) then
    parent_list
  else parent_list ++ [Callback.logger custom_logger]

/-- `_add_callback_function_to_list`: append unless the callable is already
an element (Python `in`: function identity, `(func, self)` for bound
methods). -/
def add_callback_function_to_list (funcId : Nat) (selfId : Option Nat)
    (fname : String) (parent_list : List Callback) : List Callback :=
  if Callback.fn funcId selfId fname ∈ parent_list then parent_list
  else parent_list ++ [Callback.fn funcId selfId fname]

/-- `_safe_add_callback_to_list`: reject when the size check fails, then
dispatch on the runtime shape (`str`, `CustomLogger`, callable); any other
shape falls through every branch and mutates nothing. -/
def safe_add_callback_to_list (callback : Callback) (parent_list : List Callback) :
    List Callback :=
  if check_callback_list_size parent_list = false then parent_list
  else match callback with
    | Callback.str s => add_string_callback_to_list s parent_list
    | Callback.logger l => add_custom_logger_to_list l parent_list
    | Callback.fn funcId selfId fname =>
        add_callback_function_to_list funcId selfId fname parent_list
    | Callback.unsupported _ => parent_list

/-- `_get_all_callbacks`: `callbacks + success_callback + failure_callback +
_async_success_callback + _async_failure_callback` (the input list is not
included). -/
def get_all_callbacks (st : RegistryState) : List Callback :=
  st.callbacks ++ st.success_callback ++ st.failure_callback ++
    st.async_success_callback ++ st.async_failure_callback

/-- The Python object identity of a modelled value, where it has one we
track (`CustomLogger` instances and generic objects; strings compare by
value and callables by their own key, so neither needs an id here). -/
def pyObjId : Callback → Option Nat
  | Callback.logger lg => some lg.objId
  | Callback.unsupported i => some i
  | _ => none

/-- The match test of `remove_callback_from_list_by_object`: with
`require_self` it is `hasattr(c, "__self__") and c.__self__ == obj` (only
bound methods carry `__self__`, and the owner comparison is object
identity); without it, `c == obj`. -/
def removalMatch (obj : Callback) (require_self : Bool) (c : Callback) : Bool :=
  if require_self then
    match c with
    | Callback.fn _ (some s) _ => pyObjId obj = some s
    | _ => false
  else c = obj

/-- The argument of `remove_callback_from_list_by_object`: a Python list of
callbacks, or any other value (identified by object id). -/
inductive CallbackListVal where
  | pylist (l : List Callback)
  | other (objId : Nat)
deriving DecidableEq, Repr

/-- `remove_callback_from_list_by_object`: not a list, do nothing; else
collect the matching elements and `list.remove` each one (each `remove`
deletes the first `==`-equal occurrence). -/
def remove_callback_from_list_by_object (callback_list : CallbackListVal)
    (obj : Callback) (require_self : Bool) : CallbackListVal :=
  match callback_list with
  | CallbackListVal.other i => CallbackListVal.other i
  | CallbackListVal.pylist l =>
      let remove_list := l.filter (removalMatch obj require_self)
      CallbackListVal.pylist (remove_list.foldl (fun acc c => acc.erase c) l)

/-- First-occurrence deduplication; our model of building a Python `set`
from a list and of `set` union (membership agrees with Python's, iteration
order of a CPython set is unspecified and nothing below depends on it). -/
def dedupFirst {α : Type} [DecidableEq α] : List α → List α
  | [] => []
  | x :: xs => x :: (dedupFirst xs).filter (fun y => y ≠ x)

/-- The three string buckets `get_callbacks_by_type` returns
(`CallbacksByType`). -/
structure CallbacksByType where
  success : List String
  failure : List String
  success_and_failure : List String
deriving DecidableEq, Repr

/-- Modelled from the spec: `_get_callback_string` resolves a
`CustomLogger` through the external `CustomLoggerRegistry` (class type to
canonical name, falling back to the class name itself); that registry is
not part of this module, so it enters as the `resolve` parameter.  Strings
return themselves and callables their `__name__`. -/
def get_callback_string (resolve : String → Option String) : Callback → String
  | Callback.str s => s
  | Callback.logger l =>
      match resolve l.typeName with
      | some s => s
      | none => l.typeName
  | Callback.fn _ _ fname => fname
  | Callback.unsupported i => "<object " ++ toString i ++ ">"

/-- The loop body of `get_callbacks_by_type`: classify one callback by its
membership in the general / success / failure sets and append its string to
the chosen bucket. -/
def cbt_step (strOf : Callback → String) (gs ss fs : List Callback)
    (r : CallbacksByType) (c : Callback) : CallbacksByType :=
  if c ∈ gs ∨ (c ∈ ss ∧ c ∈ fs) then
    { r with success_and_failure := r.success_and_failure ++ [strOf c] }
  else if c ∈ ss then { r with success := r.success ++ [strOf c] }
  else if c ∈ fs then { r with failure := r.failure ++ [strOf c] }
  else r

/-- `success_callbacks = set(litellm.success_callback +
litellm._async_success_callback)`. -/
def successSet (st : RegistryState) : List Callback :=
  dedupFirst (st.success_callback ++ st.async_success_callback)

/-- `failure_callbacks = set(litellm.failure_callback +
litellm._async_failure_callback)`. -/
def failureSet (st : RegistryState) : List Callback :=
  dedupFirst (st.failure_callback ++ st.async_failure_callback)

/-- `general_callbacks = set(litellm.callbacks)`. -/
def generalSet (st : RegistryState) : List Callback :=
  dedupFirst st.callbacks

/-- `all_callbacks = success_callbacks | failure_callbacks |
general_callbacks`. -/
def allSet (st : RegistryState) : List Callback :=
  dedupFirst (successSet st ++ failureSet st ++ generalSet st)

/-- `get_callbacks_by_type`: form the success, failure and general sets,
iterate over their union classifying each callback, then de-duplicate each
string bucket (`list(set(...))`). -/
def get_callbacks_by_type (resolve : String → Option String) (st : RegistryState) :
    CallbacksByType :=
  let r := (allSet st).foldl
    (cbt_step (get_callback_string resolve) (generalSet st) (successSet st)
      (failureSet st))
    ⟨[], [], []⟩
  ⟨dedupFirst r.success, dedupFirst r.failure, dedupFirst r.success_and_failure⟩

/-- The public primitive attributes of a logger, in `vars` order: exactly
those that contribute a part to the identity key. -/
def publicPrimitiveAttrs (l : CustomLoggerObj) : List (String × AttrValue) :=
  l.attrs.filter (fun p => (attrKeyPart p.1 p.2).isSome)

/-- The condition under which the loop of `get_callbacks_by_type` sends a
callback to the `success_and_failure` bucket: it is general, or on both the
success and the failure side. -/
def pBoth (gs ss fs : List Callback) (c : Callback) : Bool :=
  c ∈ gs ∨ (c ∈ ss ∧ c ∈ fs)

/-- The condition for the `success` bucket: not `pBoth`, and on the success
side. -/
def pSucc (gs ss fs : List Callback) (c : Callback) : Bool :=
  !pBoth gs ss fs c && decide (c ∈ ss)

/-- The condition for the `failure` bucket: not `pBoth`, not on the success
side, and on the failure side. -/
def pFail (gs ss fs : List Callback) (c : Callback) : Bool :=
  !pBoth gs ss fs c && !(decide (c ∈ ss)) && decide (c ∈ fs)

/-- A plain function callback with function object id `k` (used as a supply
of pairwise distinct callables). -/
def fnCallback (k : Nat) : Callback := Callback.fn k none "f"

/-- The category obtained by thirty successful distinct adds into an empty
list. -/
def listOfThirty : List Callback :=
  ((List.range 30).map fnCallback).foldl
    (fun acc c => safe_add_callback_to_list c acc) []

/-- A logger whose public primitive attributes were set in the order
`a` then `b`. -/
def loggerAB : CustomLoggerObj :=
  ⟨1, "T", [("a", AttrValue.str "1"), ("b", AttrValue.str "2")]⟩

/-- A logger with the same public primitive field mapping as `loggerAB`,
set in the opposite order. -/
def loggerBA : CustomLoggerObj :=
  ⟨2, "T", [("b", AttrValue.str "2"), ("a", AttrValue.str "1")]⟩

/-- A logger with one public primitive field plus a private field and a
non-primitive field. -/
def loggerPrivA : CustomLoggerObj :=
  ⟨5, "T", [("a", AttrValue.str "1"), ("_h", AttrValue.str "sess1"),
    ("client", AttrValue.other 9)]⟩

/-- A distinct logger object that agrees with `loggerPrivA` on the public
primitive fields but differs in identity, private state and non-primitive
state. -/
def loggerPrivB : CustomLoggerObj :=
  ⟨6, "T", [("a", AttrValue.str "1"), ("_h", AttrValue.str "sess2"),
    ("client", AttrValue.other 7)]⟩

/-- A logger whose single field value contains the join delimiter and the
pair separator. -/
def loggerDashValue : CustomLoggerObj := ⟨1, "T", [("a", AttrValue.str "1-b=2")]⟩

/-- A logger with two genuinely separate fields whose derived key collides
with `loggerDashValue`'s. -/
def loggerTwoFields : CustomLoggerObj :=
  ⟨2, "T", [("a", AttrValue.str "1"), ("b", AttrValue.str "2")]⟩

/-- Three bound-method callbacks owned by object `10` and one owned by
object `20`, registered in one category. -/
def ownerScenarioList : List Callback :=
  [Callback.fn 1 (some 10) "f1", Callback.fn 2 (some 10) "f2",
   Callback.fn 3 (some 10) "f3", Callback.fn 4 (some 20) "g"]

/-! ### Generic list lemmas -/

theorem mem_dedupFirst {α : Type} [DecidableEq α] (a : α) (l : List α) :
    a ∈ dedupFirst l ↔ a ∈ l := by
  induction l with
  | nil => simp [dedupFirst]
  | cons x xs ih =>
    by_cases h : a = x <;> simp [dedupFirst, List.mem_filter, ih, h]

theorem nodup_dedupFirst {α : Type} [DecidableEq α] (l : List α) :
    (dedupFirst l).Nodup := by
  induction l with
  | nil => simp [dedupFirst]
  | cons x xs ih =>
    rw [dedupFirst, List.nodup_cons]
    refine ⟨?_, ih.filter _⟩
    simp [List.mem_filter]

theorem filterMap_filter_isSome {α β : Type} (f : α → Option β) (l : List α) :
    (l.filter (fun x => (f x).isSome)).filterMap f = l.filterMap f := by
  induction l with
  | nil => rfl
  | cons x xs ih =>
    cases hfx : f x with
    | none => simp [List.filter_cons, List.filterMap_cons, hfx, ih]
    | some y => simp [List.filter_cons, List.filterMap_cons, hfx, ih]

theorem foldl_erase_cons {α : Type} [DecidableEq α] (rl : List α) (x : α) :
    ∀ acc : List α, (∀ c ∈ rl, c ≠ x) →
      rl.foldl (fun a c => a.erase c) (x :: acc) =
        x :: rl.foldl (fun a c => a.erase c) acc := by
  induction rl with
  | nil => intro acc _; rfl
  | cons c rl ih =>
    intro acc h
    rw [List.foldl_cons, List.foldl_cons]
    have hcx : x ≠ c := fun hx => h c (List.mem_cons_self c rl) hx.symm
    rw [List.erase_cons_tail (by simpa using hcx)]
    exact ih (acc.erase c) (fun d hd => h d (List.mem_cons_of_mem _ hd))

theorem foldl_erase_filter {α : Type} [DecidableEq α] (p : α → Bool) (l : List α) :
    (l.filter p).foldl (fun a c => a.erase c) l = l.filter (fun c => !(p c)) := by
  induction l with
  | nil => rfl
  | cons x xs ih =>
    by_cases hx : p x
    · rw [List.filter_cons_of_pos hx, List.foldl_cons, List.erase_cons_head,
        List.filter_cons_of_neg (by simp [hx])]
      exact ih
    · rw [List.filter_cons_of_neg hx,
        List.filter_cons_of_pos (by simp [hx]),
        foldl_erase_cons _ _ xs
          (fun c hc hcx => by
            revert hc
            rw [hcx]
            exact fun hc => hx (List.mem_filter.mp hc).2), ih]

/-! ### Unfolding lemmas for the add operations -/

theorem safe_add_of_full (c : Callback) (l : List Callback)
    (h : MAX_CALLBACKS ≤ l.length) :
    safe_add_callback_to_list c l = l := by
  unfold safe_add_callback_to_list check_callback_list_size
  simp [h]

theorem safe_add_str (s : String) (l : List Callback)
    (h : l.length < MAX_CALLBACKS) :
    safe_add_callback_to_list (Callback.str s) l =
      add_string_callback_to_list s l := by
  unfold safe_add_callback_to_list check_callback_list_size
  simp [Nat.not_le_of_lt h]

theorem safe_add_logger (lg : CustomLoggerObj) (l : List Callback)
    (h : l.length < MAX_CALLBACKS) :
    safe_add_callback_to_list (Callback.logger lg) l =
      add_custom_logger_to_list lg l := by
  unfold safe_add_callback_to_list check_callback_list_size
  simp [Nat.not_le_of_lt h]

theorem safe_add_fn (funcId : Nat) (selfId : Option Nat) (fname : String)
    (l : List Callback) (h : l.length < MAX_CALLBACKS) :
    safe_add_callback_to_list (Callback.fn funcId selfId fname) l =
      add_callback_function_to_list funcId selfId fname l := by
  unfold safe_add_callback_to_list check_callback_list_size
  simp [Nat.not_le_of_lt h]

theorem safe_add_unsupported (i : Nat) (l : List Callback) :
    safe_add_callback_to_list (Callback.unsupported i) l = l := by
  unfold safe_add_callback_to_list
  split <;> rfl

theorem add_string_mem (s : String) (l : List Callback)
    (h : Callback.str s ∈ l) : add_string_callback_to_list s l = l := by
  unfold add_string_callback_to_list
  simp [h]

theorem add_string_not_mem (s : String) (l : List Callback)
    (h : Callback.str s ∉ l) :
    add_string_callback_to_list s l = l ++ [Callback.str s] := by
  unfold add_string_callback_to_list
  simp [h]

theorem add_fn_mem (funcId : Nat) (selfId : Option Nat) (fname : String)
    (l : List Callback) (h : Callback.fn funcId selfId fname ∈ l) :
    add_callback_function_to_list funcId selfId fname l = l := by
  unfold add_callback_function_to_list
  simp [h]

theorem add_fn_not_mem (funcId : Nat) (selfId : Option Nat) (fname : String)
    (l : List Callback) (h : Callback.fn funcId selfId fname ∉ l) :
    add_callback_function_to_list funcId selfId fname l =
      l ++ [Callback.fn funcId selfId fname] := by
  unfold add_callback_function_to_list
  simp [h]

theorem add_logger_hit (lg : CustomLoggerObj) (l : List Callback)
    (h : l.any (loggerKeyMatches (get_custom_logger_key lg)) = true) :
    add_custom_logger_to_list lg l = l := by
  unfold add_custom_logger_to_list
  simp [h]

theorem add_logger_miss (lg : CustomLoggerObj) (l : List Callback)
    (h : l.any (loggerKeyMatches (get_custom_logger_key lg)) = false) :
    add_custom_logger_to_list lg l = l ++ [Callback.logger lg] := by
  unfold add_custom_logger_to_list
  simp [h]

theorem loggerKeyMatches_self (lg : CustomLoggerObj) (k : String)
    (h : get_custom_logger_key lg = k) :
    loggerKeyMatches k (Callback.logger lg) = true := by
  simp [loggerKeyMatches, h]

theorem safe_add_length_le (c : Callback) (l : List Callback) :
    (safe_add_callback_to_list c l).length ≤ l.length + 1 := by
  rcases Nat.lt_or_ge l.length MAX_CALLBACKS with hlt | hge
  · cases c with
    | str s =>
      rw [safe_add_str s l hlt]
      unfold add_string_callback_to_list
      split <;> simp
    | logger lg =>
      rw [safe_add_logger lg l hlt]
      unfold add_custom_logger_to_list
      split <;> simp
    | fn funcId selfId fname =>
      rw [safe_add_fn funcId selfId fname l hlt]
      unfold add_callback_function_to_list
      split <;> simp
    | unsupported i =>
      rw [safe_add_unsupported i l]
      omega
  · rw [safe_add_of_full c l hge]
    omega

/-! ### The identity key of a logger depends exactly on its public
primitive attributes, in order -/

theorem key_factor (l : CustomLoggerObj) :
    get_custom_logger_key l =
      String.intercalate "-"
        (l.typeName ::
          (publicPrimitiveAttrs l).filterMap (fun p => attrKeyPart p.1 p.2)) := by
  unfold get_custom_logger_key publicPrimitiveAttrs
  rw [filterMap_filter_isSome]

theorem key_eq_of_same_public (l1 l2 : CustomLoggerObj)
    (ht : l1.typeName = l2.typeName)
    (ha : publicPrimitiveAttrs l1 = publicPrimitiveAttrs l2) :
    get_custom_logger_key l1 = get_custom_logger_key l2 := by
  rw [key_factor, key_factor, ht, ha]

/-! ### Claims -/

/-- Claim C2: an add into a category holding at most `MAX_CALLBACKS = 30`
entries leaves it at most 30 long, and an add into a category already
holding 30 entries is a no-op that changes nothing and evicts nothing. -/
theorem claim_C2 (c : Callback) (l : List Callback)
    (h : l.length ≤ MAX_CALLBACKS) :
    (safe_add_callback_to_list c l).length ≤ MAX_CALLBACKS ∧
      (l.length = MAX_CALLBACKS → safe_add_callback_to_list c l = l) := by
  constructor
  · rcases Nat.lt_or_ge l.length MAX_CALLBACKS with hlt | hge
    · have := safe_add_length_le c l
      omega
    · rw [safe_add_of_full c l hge]
      exact h
  · intro h30
    exact safe_add_of_full c l (by omega)

set_option maxRecDepth 20000 in
/-- Witness for C2: thirty successful distinct adds yield a category of
length 30, and the 31st distinct add leaves it unchanged at length 30. -/
theorem claim_C2_witness :
    listOfThirty.length = MAX_CALLBACKS ∧
      (safe_add_callback_to_list (fnCallback 30) listOfThirty).length ≤
        MAX_CALLBACKS ∧
      safe_add_callback_to_list (fnCallback 30) listOfThirty = listOfThirty :=
  ⟨by decide,
   (claim_C2 (fnCallback 30) listOfThirty (by decide)).1,
   (claim_C2 (fnCallback 30) listOfThirty (by decide)).2 (by decide)⟩

/-- Claim C4: adding the same handle twice in succession leaves the
category with exactly the contents one add produces, for every handle kind
and every starting list. -/
theorem claim_C4 (c : Callback) (l : List Callback) :
    safe_add_callback_to_list c (safe_add_callback_to_list c l) =
      safe_add_callback_to_list c l := by
  rcases Nat.lt_or_ge l.length MAX_CALLBACKS with hlt | hge
  · cases c with
    | str s =>
      rw [safe_add_str s l hlt]
      by_cases hm : Callback.str s ∈ l
      · rw [add_string_mem s l hm, safe_add_str s l hlt, add_string_mem s l hm]
      · rw [add_string_not_mem s l hm]
        rcases Nat.lt_or_ge (l ++ [Callback.str s]).length MAX_CALLBACKS with
          hlt2 | hge2
        · rw [safe_add_str s _ hlt2, add_string_mem s _ (by simp)]
        · exact safe_add_of_full _ _ hge2
    | logger lg =>
      rw [safe_add_logger lg l hlt]
      by_cases hm : l.any (loggerKeyMatches (get_custom_logger_key lg)) = true
      · rw [add_logger_hit lg l hm, safe_add_logger lg l hlt, add_logger_hit lg l hm]
      · rw [add_logger_miss lg l (Bool.eq_false_iff.mpr hm)]
        rcases Nat.lt_or_ge (l ++ [Callback.logger lg]).length MAX_CALLBACKS with
          hlt2 | hge2
        · rw [safe_add_logger lg _ hlt2, add_logger_hit lg _ (by
            simp [List.any_append, loggerKeyMatches])]
        · exact safe_add_of_full _ _ hge2
    | fn funcId selfId fname =>
      rw [safe_add_fn funcId selfId fname l hlt]
      by_cases hm : Callback.fn funcId selfId fname ∈ l
      · rw [add_fn_mem funcId selfId fname l hm, safe_add_fn funcId selfId fname l hlt,
          add_fn_mem funcId selfId fname l hm]
      · rw [add_fn_not_mem funcId selfId fname l hm]
        rcases Nat.lt_or_ge
            (l ++ [Callback.fn funcId selfId fname]).length MAX_CALLBACKS with
          hlt2 | hge2
        · rw [safe_add_fn funcId selfId fname _ hlt2,
            add_fn_mem funcId selfId fname _ (by simp)]
        · exact safe_add_of_full _ _ hge2
    | unsupported i =>
      rw [safe_add_unsupported i l, safe_add_unsupported i l]
  · rw [safe_add_of_full c l hge, safe_add_of_full c l hge]

/-- Claim C6: `_get_all_callbacks` is the concatenation of the general,
success, failure, async-success and async-failure lists in that order, and
the input list does not influence the result. -/
theorem claim_C6 (st : RegistryState) :
    get_all_callbacks st =
      st.callbacks ++ st.success_callback ++ st.failure_callback ++
        st.async_success_callback ++ st.async_failure_callback ∧
      (∀ l : List Callback,
        get_all_callbacks { st with input_callback := l } = get_all_callbacks st) :=
  ⟨rfl, fun _ => rfl⟩

/-- Counterexample to claim C3 as stated: `loggerAB` and `loggerBA` have
the same type tag and the same public primitive field mapping (the pair
lists are permutations of one another), yet their derived identity keys
differ (`"T-a=1-b=2"` vs `"T-b=2-a=1"`): the key joins the pairs in
attribute insertion order, not sorted. -/
theorem claim_C3_counterexample :
    loggerAB.typeName = loggerBA.typeName ∧
      (publicPrimitiveAttrs loggerAB).Perm (publicPrimitiveAttrs loggerBA) ∧
      get_custom_logger_key loggerAB ≠ get_custom_logger_key loggerBA :=
  ⟨rfl, by decide, by decide⟩

/-- Claim C3 (amended): the identity key is the type tag joined with the
`name=value` parts of exactly the public primitive-valued fields, in
attribute insertion order (not sorted); private-marker fields and
non-primitive fields contribute nothing, so two instances of the same type
whose public primitive fields agree as ordered sequences have equal keys. -/
theorem claim_C3 (l1 l2 : CustomLoggerObj)
    (ht : l1.typeName = l2.typeName)
    (ha : publicPrimitiveAttrs l1 = publicPrimitiveAttrs l2) :
    get_custom_logger_key l1 =
        String.intercalate "-"
          (l1.typeName ::
            (publicPrimitiveAttrs l1).filterMap (fun p => attrKeyPart p.1 p.2)) ∧
      get_custom_logger_key l1 = get_custom_logger_key l2 :=
  ⟨key_factor l1, key_eq_of_same_public l1 l2 ht ha⟩

/-- Witness for C3 (amended): two distinct logger objects agreeing on the
public primitive fields but differing in identity, private state and
non-primitive state share one key. -/
theorem claim_C3_witness :
    get_custom_logger_key loggerPrivA = get_custom_logger_key loggerPrivB ∧
      loggerPrivA ≠ loggerPrivB :=
  ⟨(claim_C3 loggerPrivA loggerPrivB rfl (by decide)).2, by decide⟩

/-- Claim C5: two distinct logger objects of one type with identical public
primitive fields share one identity: added in succession to a category that
holds no logger of that identity and is below the cap, the first add
appends and the second is a no-op, leaving exactly one entry of that
identity. -/
theorem claim_C5 (l1 l2 : CustomLoggerObj) (xs : List Callback)
    (hne : l1.objId ≠ l2.objId)
    (ht : l1.typeName = l2.typeName)
    (ha : publicPrimitiveAttrs l1 = publicPrimitiveAttrs l2)
    (hlen : xs.length < MAX_CALLBACKS)
    (hfresh : xs.any (loggerKeyMatches (get_custom_logger_key l1)) = false) :
    safe_add_callback_to_list (Callback.logger l2)
        (safe_add_callback_to_list (Callback.logger l1) xs) =
      xs ++ [Callback.logger l1] ∧
      ((xs ++ [Callback.logger l1]).filter
          (loggerKeyMatches (get_custom_logger_key l2))).length = 1 := by
  have hkey : get_custom_logger_key l1 = get_custom_logger_key l2 :=
    key_eq_of_same_public l1 l2 ht ha
  have hstep1 : safe_add_callback_to_list (Callback.logger l1) xs =
      xs ++ [Callback.logger l1] := by
    rw [safe_add_logger l1 xs hlen, add_logger_miss l1 xs hfresh]
  have hfilter : (xs ++ [Callback.logger l1]).filter
      (loggerKeyMatches (get_custom_logger_key l2)) = [Callback.logger l1] := by
    rw [List.filter_append]
    have h1 : xs.filter (loggerKeyMatches (get_custom_logger_key l2)) = [] := by
      rw [List.filter_eq_nil_iff]
      intro a ha2
      rw [← hkey]
      have := List.any_eq_false.mp (by simpa using hfresh) a ha2
      simpa using this
    have h2 : [Callback.logger l1].filter
        (loggerKeyMatches (get_custom_logger_key l2)) = [Callback.logger l1] := by
      simp [loggerKeyMatches, hkey]
    rw [h1, h2, List.nil_append]
  refine ⟨?_, by rw [hfilter]; rfl⟩
  rw [hstep1]
  rcases Nat.lt_or_ge (xs ++ [Callback.logger l1]).length MAX_CALLBACKS with
    hlt2 | hge2
  · rw [safe_add_logger l2 _ hlt2]
    refine add_logger_hit l2 _ ?_
    rw [List.any_append]
    have : loggerKeyMatches (get_custom_logger_key l2) (Callback.logger l1) = true := by
      simp [loggerKeyMatches, hkey]
    simp [this]
  · exact safe_add_of_full _ _ hge2

/-- Witness for C5: two concrete distinct logger objects with the same type
and public primitive fields, added to an empty category, produce one entry. -/
theorem claim_C5_witness :
    safe_add_callback_to_list (Callback.logger loggerPrivB)
        (safe_add_callback_to_list (Callback.logger loggerPrivA) []) =
      [Callback.logger loggerPrivA] ∧
      ([Callback.logger loggerPrivA].filter
          (loggerKeyMatches (get_custom_logger_key loggerPrivB))).length = 1 :=
  claim_C5 loggerPrivA loggerPrivB [] (by decide) rfl (by decide) (by decide)
    (by decide)

/-- Claim C7: a callable is appended to a below-cap category exactly when
no existing element is the same function reference (the same function with
the same bound owner); equal references make the add a no-op, and distinct
references are never treated as duplicates of one another. -/
theorem claim_C7 (funcId : Nat) (selfId : Option Nat) (fname : String)
    (l : List Callback) (hlen : l.length < MAX_CALLBACKS) :
    (Callback.fn funcId selfId fname ∉ l →
        safe_add_callback_to_list (Callback.fn funcId selfId fname) l =
          l ++ [Callback.fn funcId selfId fname]) ∧
      (Callback.fn funcId selfId fname ∈ l →
        safe_add_callback_to_list (Callback.fn funcId selfId fname) l = l) ∧
      (∀ (g : Nat) (so2 : Option Nat) (n2 : String), g ≠ funcId →
        safe_add_callback_to_list (Callback.fn funcId selfId fname)
            [Callback.fn g so2 n2] =
          [Callback.fn g so2 n2, Callback.fn funcId selfId fname]) := by
  refine ⟨?_, ?_, ?_⟩
  · intro hm
    rw [safe_add_fn funcId selfId fname l hlen, add_fn_not_mem funcId selfId fname l hm]
  · intro hm
    rw [safe_add_fn funcId selfId fname l hlen, add_fn_mem funcId selfId fname l hm]
  · intro g so2 n2 hg
    rw [safe_add_fn funcId selfId fname _ (by simp [MAX_CALLBACKS]),
      add_fn_not_mem funcId selfId fname _ (by simp [Ne.symm hg])]
    rfl

/-- Witness for C7: a fresh callable is appended, re-adding the same
reference is a no-op, and a different reference with the same declared name
is still appended. -/
theorem claim_C7_witness :
    safe_add_callback_to_list (Callback.fn 1 none "f") [] =
        [Callback.fn 1 none "f"] ∧
      safe_add_callback_to_list (Callback.fn 1 none "f") [Callback.fn 1 none "f"] =
        [Callback.fn 1 none "f"] ∧
      safe_add_callback_to_list (Callback.fn 1 none "f") [Callback.fn 2 none "f"] =
        [Callback.fn 2 none "f", Callback.fn 1 none "f"] :=
  ⟨(claim_C7 1 none "f" [] (by decide)).1 (by decide),
   (claim_C7 1 none "f" [Callback.fn 1 none "f"] (by decide)).2.1 (by decide),
   (claim_C7 1 none "f" [] (by decide)).2.2 2 none "f" (by decide)⟩

/-- Claim C9: the add operation is a total function that silently returns
the list unchanged for every rejected input: an unrecognized handle shape
mutates nothing, an at-capacity add mutates nothing, and a duplicate add of
any of the three recognized kinds mutates nothing. -/
theorem claim_C9 :
    (∀ (i : Nat) (l : List Callback),
        safe_add_callback_to_list (Callback.unsupported i) l = l) ∧
      (∀ (c : Callback) (l : List Callback), MAX_CALLBACKS ≤ l.length →
        safe_add_callback_to_list c l = l) ∧
      (∀ (s : String) (l : List Callback), Callback.str s ∈ l →
        safe_add_callback_to_list (Callback.str s) l = l) ∧
      (∀ (funcId : Nat) (selfId : Option Nat) (fname : String) (l : List Callback),
        Callback.fn funcId selfId fname ∈ l →
        safe_add_callback_to_list (Callback.fn funcId selfId fname) l = l) ∧
      (∀ (lg : CustomLoggerObj) (l : List Callback),
        l.any (loggerKeyMatches (get_custom_logger_key lg)) = true →
        safe_add_callback_to_list (Callback.logger lg) l = l) := by
  refine ⟨safe_add_unsupported, safe_add_of_full, ?_, ?_, ?_⟩
  · intro s l hm
    rcases Nat.lt_or_ge l.length MAX_CALLBACKS with hlt | hge
    · rw [safe_add_str s l hlt, add_string_mem s l hm]
    · exact safe_add_of_full _ l hge
  · intro funcId selfId fname l hm
    rcases Nat.lt_or_ge l.length MAX_CALLBACKS with hlt | hge
    · rw [safe_add_fn funcId selfId fname l hlt, add_fn_mem funcId selfId fname l hm]
    · exact safe_add_of_full _ l hge
  · intro lg l hm
    rcases Nat.lt_or_ge l.length MAX_CALLBACKS with hlt | hge
    · rw [safe_add_logger lg l hlt, add_logger_hit lg l hm]
    · exact safe_add_of_full _ l hge

/-- Claim C10: the logger identity key is not injective on (type tag,
public primitive field mapping): `loggerDashValue` (one field whose value
contains `-` and `=`) and `loggerTwoFields` (two separate fields) have
different public primitive fields but the same key, so duplicate
suppression treats the second configuration as already present. -/
theorem claim_C10 :
    get_custom_logger_key loggerDashValue = get_custom_logger_key loggerTwoFields ∧
      publicPrimitiveAttrs loggerDashValue ≠ publicPrimitiveAttrs loggerTwoFields ∧
      add_custom_logger_to_list loggerTwoFields [Callback.logger loggerDashValue] =
        [Callback.logger loggerDashValue] ∧
      safe_add_callback_to_list (Callback.logger loggerTwoFields)
          [Callback.logger loggerDashValue] =
        [Callback.logger loggerDashValue] :=
  ⟨by decide, by decide, by decide, by decide⟩

/-- Claim C8: `remove_callback_from_list_by_object` leaves a non-list value
untouched; on a list it removes every handle matching the owner test (all
matches, not only the first), which equals in-place filtering; registering
three bound methods owned by object `10` and one owned by object `20` and
removing by owner `10` leaves exactly the handle owned by `20`. -/
theorem claim_C8 (obj : Callback) (require_self : Bool) :
    (∀ i : Nat,
        remove_callback_from_list_by_object (CallbackListVal.other i) obj
          require_self = CallbackListVal.other i) ∧
      (∀ l : List Callback,
        remove_callback_from_list_by_object (CallbackListVal.pylist l) obj
            require_self =
          CallbackListVal.pylist
            (l.filter (fun c => !(removalMatch obj require_self c)))) ∧
      remove_callback_from_list_by_object (CallbackListVal.pylist ownerScenarioList)
          (Callback.unsupported 10) true =
        CallbackListVal.pylist [Callback.fn 4 (some 20) "g"] := by
  refine ⟨fun _ => rfl, ?_, by decide⟩
  intro l
  show CallbackListVal.pylist
      ((l.filter (removalMatch obj require_self)).foldl
        (fun acc c => acc.erase c) l) = _
  rw [foldl_erase_filter]

/-! ### The classification loop of `get_callbacks_by_type` -/

theorem cbt_foldl (strOf : Callback → String) (gs ss fs : List Callback)
    (l : List Callback) (r : CallbacksByType) :
    l.foldl (cbt_step strOf gs ss fs) r =
      ⟨r.success ++ (l.filter (pSucc gs ss fs)).map strOf,
       r.failure ++ (l.filter (pFail gs ss fs)).map strOf,
       r.success_and_failure ++ (l.filter (pBoth gs ss fs)).map strOf⟩ := by
  induction l generalizing r with
  | nil => simp
  | cons x xs ih =>
    rw [List.foldl_cons, ih]
    by_cases hg : x ∈ gs <;> by_cases hs : x ∈ ss <;> by_cases hf : x ∈ fs <;>
      simp [cbt_step, pBoth, pSucc, pFail, hg, hs, hf, List.filter_cons,
        List.append_assoc]

theorem mem_bucket_iff (strOf : Callback → String) (p : Callback → Bool)
    (all : List Callback) (s : String) :
    s ∈ dedupFirst ((all.filter p).map strOf) ↔
      ∃ c, c ∈ all ∧ p c = true ∧ strOf c = s := by
  rw [mem_dedupFirst]
  simp only [List.mem_map, List.mem_filter]
  constructor
  · rintro ⟨c, ⟨hc, hp⟩, hs⟩
    exact ⟨c, hc, hp, hs⟩
  · rintro ⟨c, hc, hp, hs⟩
    exact ⟨c, ⟨hc, hp⟩, hs⟩

theorem mem_successSet (st : RegistryState) (c : Callback) :
    c ∈ successSet st ↔
      c ∈ st.success_callback ++ st.async_success_callback := by
  rw [successSet, mem_dedupFirst]

theorem mem_failureSet (st : RegistryState) (c : Callback) :
    c ∈ failureSet st ↔
      c ∈ st.failure_callback ++ st.async_failure_callback := by
  rw [failureSet, mem_dedupFirst]

theorem mem_generalSet (st : RegistryState) (c : Callback) :
    c ∈ generalSet st ↔ c ∈ st.callbacks := by
  rw [generalSet, mem_dedupFirst]

theorem mem_allSet (st : RegistryState) (c : Callback) :
    c ∈ allSet st ↔
      c ∈ st.success_callback ++ st.async_success_callback ∨
        c ∈ st.failure_callback ++ st.async_failure_callback ∨
        c ∈ st.callbacks := by
  rw [allSet, mem_dedupFirst]
  simp [List.mem_append, mem_successSet, mem_failureSet, mem_generalSet,
    successSet, failureSet, generalSet, mem_dedupFirst]

theorem get_callbacks_by_type_buckets (resolve : String → Option String)
    (st : RegistryState) :
    get_callbacks_by_type resolve st =
      ⟨dedupFirst (((allSet st).filter
          (pSucc (generalSet st) (successSet st) (failureSet st))).map
            (get_callback_string resolve)),
       dedupFirst (((allSet st).filter
          (pFail (generalSet st) (successSet st) (failureSet st))).map
            (get_callback_string resolve)),
       dedupFirst (((allSet st).filter
          (pBoth (generalSet st) (successSet st) (failureSet st))).map
            (get_callback_string resolve))⟩ := by
  simp only [get_callbacks_by_type]
  rw [cbt_foldl]
  rfl

/-- Claim C1: `get_callbacks_by_type` puts the string of each handle of the
union into exactly the bucket its membership dictates — general or
(success ∧ failure) handles into `success_and_failure`, otherwise success
handles into `success`, otherwise failure handles into `failure` — with
each bucket de-duplicated; and the two concrete scenarios of the spec
evaluate as stated. -/
theorem claim_C1 (resolve : String → Option String) (st : RegistryState) :
    (∀ s : String,
      s ∈ (get_callbacks_by_type resolve st).success_and_failure ↔
        ∃ c : Callback,
          (c ∈ st.callbacks ∨
            (c ∈ st.success_callback ++ st.async_success_callback ∧
              c ∈ st.failure_callback ++ st.async_failure_callback)) ∧
          get_callback_string resolve c = s) ∧
    (∀ s : String,
      s ∈ (get_callbacks_by_type resolve st).success ↔
        ∃ c : Callback,
          c ∈ st.success_callback ++ st.async_success_callback ∧
          c ∉ st.callbacks ∧
          c ∉ st.failure_callback ++ st.async_failure_callback ∧
          get_callback_string resolve c = s) ∧
    (∀ s : String,
      s ∈ (get_callbacks_by_type resolve st).failure ↔
        ∃ c : Callback,
          c ∈ st.failure_callback ++ st.async_failure_callback ∧
          c ∉ st.callbacks ∧
          c ∉ st.success_callback ++ st.async_success_callback ∧
          get_callback_string resolve c = s) ∧
    (get_callbacks_by_type resolve st).success.Nodup ∧
    (get_callbacks_by_type resolve st).failure.Nodup ∧
    (get_callbacks_by_type resolve st).success_and_failure.Nodup ∧
    get_callbacks_by_type (fun _ => none)
        ⟨[], [Callback.str "langfuse"], [Callback.str "datadog"],
          [Callback.str "sentry"], [], []⟩ =
      ⟨["datadog"], ["sentry"], ["langfuse"]⟩ ∧
    get_callbacks_by_type (fun _ => none)
        ⟨[], [], [Callback.str "x"], [Callback.str "x"], [], []⟩ =
      ⟨[], [], ["x"]⟩ := by
  refine ⟨?_, ?_, ?_, ?_, ?_, ?_, by decide, by decide⟩
  · intro s
    simp only [get_callbacks_by_type_buckets]
    rw [mem_bucket_iff]
    refine exists_congr fun c => ?_
    simp only [mem_allSet, pBoth, decide_eq_true_eq, mem_generalSet,
      mem_successSet, mem_failureSet]
    tauto
  · intro s
    simp only [get_callbacks_by_type_buckets]
    rw [mem_bucket_iff]
    refine exists_congr fun c => ?_
    simp only [mem_allSet, pSucc, pBoth, Bool.and_eq_true, Bool.not_eq_true',
      decide_eq_false_iff_not, decide_eq_true_eq, mem_generalSet,
      mem_successSet, mem_failureSet]
    tauto
  · intro s
    simp only [get_callbacks_by_type_buckets]
    rw [mem_bucket_iff]
    refine exists_congr fun c => ?_
    simp only [mem_allSet, pFail, pBoth, Bool.and_eq_true, Bool.not_eq_true',
      decide_eq_false_iff_not, decide_eq_true_eq, mem_generalSet,
      mem_successSet, mem_failureSet]
    tauto
  · simp only [get_callbacks_by_type_buckets]
    exact nodup_dedupFirst _
  · simp only [get_callbacks_by_type_buckets]
    exact nodup_dedupFirst _
  · simp only [get_callbacks_by_type_buckets]
    exact nodup_dedupFirst _
